import Mathlib

/-!
# Verification of the cloudtest execution engine and packet provider adapter

Shallow embedding of the `Mixaster995/cloudtest` repository (Go) into Lean 4.

The embedding covers:
* the packet provider adapter (`pkg/providers/packet`): `ValidateConfig`,
  `CreateCluster`, `getProviderID`, and the `packetInstance` operations
  `Start`, `IsRunning`, `GetClusterConfig`, `CheckIsAlive`, `updateKUBEConfig`;
* the shell manager (`pkg/shell`): `PrintEnv` / `PrintArgs` secret masking,
  including a faithful model of Go's `strings.Replace(s, old, new, -1)`;
* the execution engine's cluster-instance state machine and task bookkeeping
  (`pkg/commands`), whose implementation file is not part of the source tree
  given here: those parts are modelled from the specification document and
  from the repository's own tests (`TestClusterInstanceStates`,
  `TestUpdateTaskWithTimeout_ShouldNotCompleteTask`), which pin the observable
  behaviour at the points the claims speak about.

Effectful calls (REST client calls to the Packet cloud, process execution,
file system) are abstracted as oracle records supplied as explicit inputs;
the control flow of each embedded function follows the Go source line by line.
-/

namespace Cloudtest

/-- Go `error` values: we only ever compare them against `nil`, so a plain
message string is enough. `Option GoError` plays the role of Go's `error`
(`none` = `nil`). -/
abbrev GoError := String

/-! ## Configuration data model (`pkg/config`)

Only the fields read by the embedded functions are carried. -/

/-- One hardware device request of the packet configuration
(`config.HardwareDeviceConfig`). -/
structure HardwareDeviceConfig where
  name : String
  hostName : String
  operatingSystem : String
  billingCycle : String
  portVLANs : List (String × Int)
  deriving Repr, DecidableEq

/-- One facility device request (`config.FacilityDeviceConfig`), a hardware
device config plus a plan. -/
structure FacilityDeviceConfig where
  hardware : HardwareDeviceConfig
  plan : String
  deriving Repr, DecidableEq

/-- The packet-specific configuration element (`config.PacketConfig`). -/
structure PacketConfig where
  sshKey : String
  hardwareDevices : List HardwareDeviceConfig
  devices : List FacilityDeviceConfig
  hardwareReservations : List String
  facilities : List String
  preferredFacility : String
  deriving Repr, DecidableEq

/-- A cluster provider configuration (`config.ClusterProviderConfig`).
`scripts` is the Go map `Scripts map[string]string`, modelled as an
association list with first-match lookup; `envCheck` is the list of required
environment variable names. -/
structure ClusterProviderConfig where
  name : String
  timeout : Nat
  nodeCount : Nat
  kind : String
  retryCount : Nat
  instances : Nat
  scripts : List (String × String)
  env : List String
  envCheck : List String
  packet : Option PacketConfig
  enabled : Bool
  deriving Repr, DecidableEq

/-- Instance options passed to providers (`providers.InstanceOptions`). -/
structure InstanceOptions where
  noInstall : Bool
  noMaskParameters : Bool
  deriving Repr, DecidableEq

/-- The process environment, as read by Go's `os.Getenv`: a total function
from variable names to values, where the empty string means "unset". -/
abbrev OsEnv := String → String

/-- Map lookup `m[k]` for a Go `map[string]string` modelled as an association
list (`ok` is `(lookup k).isSome`). -/
def lookupScript (scripts : List (String × String)) (k : String) : Option String :=
  scripts.lookup k

/-! ## `packetProvider.ValidateConfig` (src/unnamed/part_000, lines 776-829)

A line-by-line transcription.  The Go function returns `error`; we return
`Option GoError` where `none` is the `nil` error. -/

/-- Embedding of `packetProvider.ValidateConfig`. -/
def ValidateConfig (config : ClusterProviderConfig) (getenv : OsEnv) : Option GoError :=
  match config.packet with
  | none => some "packet configuration element should be specified"
  | some packet =>
    let isHardware := packet.hardwareDevices.length > 0
    let isFacility := packet.devices.length > 0
    if ¬isHardware ∧ ¬isFacility then
      some "packet configuration devices should be specified"
    else if isHardware ∧ packet.hardwareReservations.length = 0 then
      some "packet hardware reservations should be specified"
    else if isFacility ∧ packet.facilities.length = 0 then
      some "packet configuration facilities should be specified"
    else if (lookupScript config.scripts "config").isNone
        ∧ ¬(config.env.any (fun e => e.startsWith "KUBECONFIG=")) then
      some "invalid config location"
    else if (lookupScript config.scripts "start").isNone then
      some "invalid start script"
    else if config.envCheck.any (fun envVar => getenv envVar = "") then
      some "environment variable are not specified"
    else if getenv "PACKET_AUTH_TOKEN" = "" then
      some "environment variable are not specified PACKET_AUTH_TOKEN"
    else if getenv "PACKET_PROJECT_ID" = "" then
      some "environment variable are not specified PACKET_PROJECT_ID"
    else
      none

/-! ## The packet instance (`packetInstance`) -/

/-- A Kubernetes validator as consumed by the packet instance
(`k8s.KubernetesValidator`): an external collaborator, represented by the
outcomes of its two methods. -/
structure KubernetesValidator where
  validateResult : Option GoError
  waitValidResult : Option GoError
  deriving Repr, DecidableEq

/-- A Packet project (`packngo.Project`), reduced to the fields the adapter
reads. -/
structure Project where
  id : String
  name : String
  deriving Repr, DecidableEq

/-- A Packet SSH key (`packngo.SSHKey`), reduced to the fields the adapter
reads. -/
structure SSHKey where
  id : String
  label : String
  key : String
  deriving Repr, DecidableEq

/-- A Packet hardware reservation (`packngo.HardwareReservation`), reduced to
the fields the adapter reads. -/
structure HardwareReservation where
  id : String
  plan : String
  facility : String
  deriving Repr, DecidableEq

/-- State of one packet cluster instance (`packetInstance`).  Only fields
read or written by the embedded methods are carried; pure-I/O handles
(REST client, log files) live in the oracle environment instead. -/
structure PacketInstance where
  root : String
  id : String
  config : ClusterProviderConfig
  configScript : String
  configLocation : String
  projectID : String
  packetAuthKey : String
  keyID : String
  keyIds : List String
  devices : List (String × String)
  params : InstanceOptions
  started : Bool
  validator : Option KubernetesValidator
  project : Option Project
  sshKey : Option SSHKey
  virtualNetworkList : List String
  hardwareReservationsList : List HardwareReservation
  facilitiesList : List String
  installScriptPresent : Bool
  deriving Repr, DecidableEq

/-- `packetInstance.GetID` (lines 98-100). -/
def GetID (pi : PacketInstance) : String :=
  pi.id

/-- `packetInstance.IsRunning` (lines 109-111). -/
def IsRunning (pi : PacketInstance) : Bool :=
  pi.started

/-- `packetInstance.CheckIsAlive` (lines 102-107): when started, delegates to
`pi.validator.Validate()`; otherwise errors.  A missing validator cannot
occur after `Start`, and is modelled as an error. -/
def CheckIsAlive (pi : PacketInstance) : Option GoError :=
  if pi.started then
    match pi.validator with
    | some v => v.validateResult
    | none => some "nil validator"
  else
    some "cluster is not running"

/-- `packetInstance.GetClusterConfig` (lines 113-118): `(path, error)`. -/
def GetClusterConfig (pi : PacketInstance) : String × Option GoError :=
  if pi.started then
    (pi.configLocation, none)
  else
    ("", some "cluster is not started yet")

/-- Oracle inputs for `updateKUBEConfig`: the shell manager's
`GetConfigLocation()` (the `KUBECONFIG` value passed in the provider env, or
empty) and the output lines of `utils.ExecRead` on the config script. -/
structure KubeConfigEnv where
  getConfigLocation : String
  execReadOutput : List String
  execReadErr : Option GoError
  deriving Repr, DecidableEq

/-- `packetInstance.updateKUBEConfig` (lines 270-283).  Note that the Go
function logs an `ExecRead` failure but still assigns `output[0]` and always
returns `nil`; `output[0]` on an empty slice (a Go panic) is modelled by
`headD ""`. -/
def updateKUBEConfig (env : KubeConfigEnv) (pi : PacketInstance) :
    PacketInstance × Option GoError :=
  let pi :=
    if pi.configLocation = "" then
      { pi with configLocation := env.getConfigLocation }
    else pi
  let pi :=
    if pi.configLocation = "" then
      { pi with configLocation := env.execReadOutput.headD "" }
    else pi
  (pi, none)

/-! ## The packet provider (`packetProvider`) -/

/-- State of the packet provider factory (`packetProvider`).  The Go maps
`indexes map[string]int` and `installDone map[string]bool` are modelled as
association lists where a new binding is consed on (shadowing the old one);
the `clusters` slice is never read by any embedded operation and is omitted. -/
structure PacketProvider where
  root : String
  indexes : List (String × Nat)
  installDone : List (String × Bool)
  deriving Repr, DecidableEq

/-- `NewPacketClusterProvider` (lines 766-774): fresh provider with empty
maps (the folder clearing is I/O). -/
def NewPacketClusterProvider (root : String) : PacketProvider :=
  { root := root, indexes := [], installDone := [] }

/-- Decimal digits of a natural number, mirroring the output of Go's
`fmt.Sprintf("%d", val)` for non-negative values. -/
def natDigits (n : Nat) : List Char :=
  if _h : n < 10 then
    [Nat.digitChar n]
  else
    natDigits (n / 10) ++ [Nat.digitChar (n % 10)]
  termination_by n
  decreasing_by
    exact Nat.div_lt_self (by omega) (by omega)

/-- Decimal rendering of a natural number (`fmt.Sprintf("%d", val)`). -/
def natRepr (n : Nat) : String :=
  ⟨natDigits n⟩

/-- `packetProvider.getProviderID` (lines 687-696): per-provider-name ordinal
counter starting at 1, returned as a decimal string; the counter map is
updated in place. -/
def getProviderID (p : PacketProvider) (provider : String) : String × PacketProvider :=
  let val :=
    match p.indexes.lookup provider with
    | some v => v + 1
    | none => 1
  (natRepr val, { p with indexes := (provider, val) :: p.indexes })

/-- `path.Join(p.root, id)` for the non-empty, already-clean paths the
provider uses. -/
def joinPath (a b : String) : String :=
  a ++ "/" ++ b

/-- `packetProvider.CreateCluster` (lines 698-732).  Validation runs first;
on success the instance is assembled with the next per-name ordinal.
`utils.ParseScript` (not under src/) turns a script string into a `nil` slice
exactly when the script is absent, so the `installScript != nil` test of
`doInstall` is modelled by presence of the `install` script key. -/
def CreateCluster (config : ClusterProviderConfig) (getenv : OsEnv)
    (instanceOptions : InstanceOptions) (p : PacketProvider) :
    Except GoError (PacketInstance × PacketProvider) :=
  match ValidateConfig config getenv with
  | some e => Except.error e
  | none =>
    let r := getProviderID p config.name
    let id := config.name ++ "-" ++ r.1
    let root := joinPath p.root id
    Except.ok
      ({ root := root
         id := id
         config := config
         configScript := (lookupScript config.scripts "config").getD ""
         configLocation := ""
         projectID := getenv "PACKET_PROJECT_ID"
         packetAuthKey := getenv "PACKET_AUTH_TOKEN"
         keyID := ""
         keyIds := []
         devices := []
         params := instanceOptions
         started := false
         validator := none
         project := none
         sshKey := none
         virtualNetworkList := []
         hardwareReservationsList := []
         facilitiesList := []
         installScriptPresent := (lookupScript config.scripts "install").isSome },
       r.2)

/-! ## `packetInstance.Start` (lines 120-268) and its helpers

Every REST call to the Packet cloud, every process execution and every file
operation is abstracted as an oracle value carried by `CreateKeyEnv` /
`StartEnv`; the control flow transcribes the Go source.  Shell commands
(`RunCmd`) return a `(logFileName, error)` pair exactly as in Go, and an
error return still carries the file name produced so far. -/

/-- `packetInstance.doInstall` (lines 570-578): under the provider lock, run
the install script once per provider name.  The `installDone` mark is set
before the script runs, exactly as in the source. -/
def doInstall (runInstall : String × Option GoError) (p : PacketProvider)
    (pi : PacketInstance) : PacketProvider × String × Option GoError :=
  if pi.installScriptPresent ∧ ¬((p.installDone.lookup pi.config.name).getD false) then
    ({ p with installDone := (pi.config.name, true) :: p.installDone },
     runInstall.1, runInstall.2)
  else
    (p, "", none)

/-- `packetInstance.updateProject` (lines 580-607): scan the listed projects
for the configured project id (last match wins, as in the Go loop) and fail
when it is absent. -/
def updateProject (projects : List Project) (pi : PacketInstance) :
    PacketInstance × Option GoError :=
  let pi :=
    { pi with
      project := projects.foldl
        (fun acc (pr : Project) => if pr.id = pi.projectID then some pr else acc)
        pi.project }
  match pi.project with
  | none => (pi, some "specified project are not found on Packet")
  | some _ => (pi, none)

/-- `packetInstance.findKeys` (lines 662-685): returns the key whose label
matches (last match wins) together with the ids of all listed keys. -/
def findKeys (sshKeys : List SSHKey) (keyID : String) : Option SSHKey × List String :=
  (sshKeys.foldl (fun acc kk => if kk.label = keyID then some kk else acc) none,
   sshKeys.map (·.id))

/-- Oracle inputs of `createKey`: log-file opening, the generated random key
id, the key file contents, the result of `client.SSHKeys.Create` and the
listing used by `findKeys`. -/
structure CreateKeyEnv where
  openFileErr : Option GoError
  genID : String
  readKeyFileErr : Option GoError
  sshKeyCreated : Option SSHKey
  sshKeyCreateErr : Option GoError
  sshKeysList : List SSHKey
  deriving Repr, DecidableEq

/-- `packetInstance.createKey` (lines 609-660).  Note the source quirk kept
here: when `Create` returns no key and `findKeys` finds none either, the
function returns the `Create` call's error — which can itself be `nil`. -/
def createKey (env : CreateKeyEnv) (pi : PacketInstance) :
    PacketInstance × List String × Option GoError :=
  match env.openFileErr with
  | some e => (pi, [], some e)
  | none =>
    let pi := { pi with keyID := "dev-ci-cloud-" ++ env.genID }
    match env.readKeyFileErr with
    | some e => (pi, [], some e)
    | none =>
      match env.sshKeyCreated with
      | some k =>
        ({ pi with sshKey := some k }, [k.id], none)
      | none =>
        let r := findKeys env.sshKeysList pi.keyID
        let pi := { pi with sshKey := r.1 }
        match r.1 with
        | none => (pi, [], env.sshKeyCreateErr)
        | some _ => (pi, r.2, none)

/-- The filtering loop of `findHardwareReservations` (lines 497-506): keep
the reservations whose id occurs in the configured list (with the source's
nested-loop multiplicity). -/
def filterReservations (raw : List HardwareReservation) (wanted : List String) :
    List HardwareReservation :=
  (raw.map (fun hr =>
    wanted.filterMap (fun hrr => if hrr = hr.id then some hr else none))).flatten

/-- `packetInstance.findHardwareReservations` (lines 489-507). -/
def findHardwareReservations (raw : List HardwareReservation × Option GoError)
    (pi : PacketInstance) : List HardwareReservation × Option GoError :=
  match raw.2 with
  | some e => ([], some e)
  | none =>
    (filterReservations raw.1 ((pi.config.packet.map (·.hardwareReservations)).getD []),
     none)

/-- The facility selection of `findFacilities` (lines 523-554): keep the
facilities offering every required feature, then move the preferred facility
(first occurrence) to the front by swapping it with position 0. -/
def selectFacilities (raw : List (String × List String)) (required : List String)
    (preferred : String) : List String :=
  let list := raw.filterMap
    (fun f => if required.all (fun r => f.2.contains r) then some f.1 else none)
  if preferred = "" then list
  else
    match list.findIdx? (fun f => f = preferred) with
    | none => list
    | some ind =>
      let a := list.headD ""
      let b := list.getD ind ""
      (list.set ind a).set 0 b

/-- One step of the device-creation loops of `Start` (lines 189-199 and
204-214): create each configured device, record it in the devices map, and
collect its port-to-VLAN table when non-empty; the first failure aborts. -/
def createDevicesLoop {α : Type} (create : α → String × Option GoError)
    (name : α → String) (ports : α → List (String × Int)) :
    List α → List (String × String) → List (String × List (String × Int)) →
    (List (String × String) × List (String × List (String × Int))) × Option GoError
  | [], devices, portsVLANs => ((devices, portsVLANs), none)
  | c :: rest, devices, portsVLANs =>
    let r := create c
    match r.2 with
    | some e => (((name c, r.1) :: devices, portsVLANs), some e)
    | none =>
      let devices := (name c, r.1) :: devices
      let portsVLANs :=
        if ports c ≠ [] then (name c, ports c) :: portsVLANs else portsVLANs
      createDevicesLoop create name ports rest devices portsVLANs

/-- The port-setup loop of `Start` (lines 222-227): `setupDevicePorts` is
REST I/O and is abstracted per device key; the first failure aborts. -/
def setupPortsLoop (setupErr : String → Option GoError) :
    List (String × List (String × Int)) → Option GoError
  | [] => none
  | (key, _) :: rest =>
    match setupErr key with
    | some e => some e
    | none => setupPortsLoop setupErr rest

/-- Oracle inputs of `Start`: outcomes of every effectful step, in source
order.  `waitDevicesStartupErr` subsumes the log-file opening and the
polling loop of `waitDevicesStartup` (pure I/O against the cloud);
`setupDevicePortsErr` and `addDeviceContextArgumentsErr` likewise. -/
structure StartEnv where
  processEnvironmentErr : Option GoError
  runInstall : String × Option GoError
  runSetup : String × Option GoError
  fileExists : String → Bool
  newClientErr : Option GoError
  projects : List Project
  createKeyEnv : CreateKeyEnv
  virtualNetworks : List String × Option GoError
  hardwareReservationsRaw : List HardwareReservation × Option GoError
  createHardwareDevice : HardwareDeviceConfig → String × Option GoError
  facilitiesOpenErr : Option GoError
  facilitiesRaw : List (String × List String) × Option GoError
  createFacilityDevice : FacilityDeviceConfig → String × Option GoError
  waitDevicesStartupErr : Option GoError
  setupDevicePortsErr : String → Option GoError
  addDeviceContextArgumentsErr : Option GoError
  runStart : String × Option GoError
  kube : KubeConfigEnv
  createValidator : KubernetesValidator × Option GoError
  runPrepare : String × Option GoError

/-- `packetInstance.findFacilities` (lines 509-559). -/
def findFacilities (env : StartEnv) (pi : PacketInstance) :
    List String × Option GoError :=
  match env.facilitiesOpenErr with
  | some e => ([], some e)
  | none =>
    match env.facilitiesRaw.2 with
    | some e => ([], some e)
    | none =>
      (selectFacilities env.facilitiesRaw.1
        ((pi.config.packet.map (·.facilities)).getD [])
        ((pi.config.packet.map (·.preferredFacility)).getD ""), none)

/-- The `(logFile, err)` result of `Start` together with the instance and
provider state it leaves behind. -/
structure StartResult where
  provider : PacketProvider
  inst : PacketInstance
  logFile : String
  err : Option GoError

/-- `packetInstance.Start` (lines 120-268), step for step.  `started` is
assigned only on the single all-successful path, immediately before the
final `return "", nil`. -/
def Start (env : StartEnv) (p : PacketProvider) (pi : PacketInstance) : StartResult :=
  match env.processEnvironmentErr with
  | some e => ⟨p, pi, "", some e⟩
  | none =>
  let ir := if !pi.params.noInstall then doInstall env.runInstall p pi else (p, "", none)
  let p := ir.1
  match ir.2.2 with
  | some e => ⟨p, pi, ir.2.1, some e⟩
  | none =>
  match env.runSetup.2 with
  | some e => ⟨p, pi, env.runSetup.1, some e⟩
  | none =>
  let keyFile := (pi.config.packet.map (·.sshKey)).getD ""
  let keyFileFound :=
    env.fileExists keyFile || env.fileExists (joinPath pi.root keyFile)
  if !keyFileFound then
    ⟨p, pi, "",
     some "failed to locate generated key file, please specify init script to generate it"⟩
  else
  match env.newClientErr with
  | some e => ⟨p, pi, "", some e⟩
  | none =>
  let up := updateProject env.projects pi
  let pi := up.1
  match up.2 with
  | some e => ⟨p, pi, "", some e⟩
  | none =>
  let ck := createKey env.createKeyEnv pi
  let pi := { ck.1 with keyIds := ck.2.1 }
  match ck.2.2 with
  | some e => ⟨p, pi, "", some e⟩
  | none =>
  match env.virtualNetworks.2 with
  | some e => ⟨p, pi, "", some e⟩
  | none =>
  let pi := { pi with virtualNetworkList := env.virtualNetworks.1 }
  let hw := findHardwareReservations env.hardwareReservationsRaw pi
  let pi := { pi with hardwareReservationsList := hw.1 }
  match hw.2 with
  | some e => ⟨p, pi, "", some e⟩
  | none =>
  let hwLoop := createDevicesLoop env.createHardwareDevice (·.name) (·.portVLANs)
    ((pi.config.packet.map (·.hardwareDevices)).getD []) pi.devices []
  let pi := { pi with devices := hwLoop.1.1 }
  match hwLoop.2 with
  | some e => ⟨p, pi, "", some e⟩
  | none =>
  let fl := findFacilities env pi
  let pi := { pi with facilitiesList := fl.1 }
  match fl.2 with
  | some e => ⟨p, pi, "", some e⟩
  | none =>
  let fLoop := createDevicesLoop env.createFacilityDevice (·.hardware.name)
    (·.hardware.portVLANs) ((pi.config.packet.map (·.devices)).getD [])
    pi.devices hwLoop.1.2
  let pi := { pi with devices := fLoop.1.1 }
  match fLoop.2 with
  | some e => ⟨p, pi, "", some e⟩
  | none =>
  match env.waitDevicesStartupErr with
  | some e => ⟨p, pi, "", some e⟩
  | none =>
  match setupPortsLoop env.setupDevicePortsErr fLoop.1.2 with
  | some e => ⟨p, pi, "", some e⟩
  | none =>
  match env.addDeviceContextArgumentsErr with
  | some e => ⟨p, pi, "", some e⟩
  | none =>
  match env.runStart.2 with
  | some e => ⟨p, pi, env.runStart.1, some e⟩
  | none =>
  let ku := updateKUBEConfig env.kube pi
  let pi := ku.1
  match ku.2 with
  | some e => ⟨p, pi, "", some e⟩
  | none =>
  match env.createValidator.2 with
  | some e => ⟨p, pi, "", some e⟩
  | none =>
  let pi := { pi with validator := some env.createValidator.1 }
  match env.runPrepare.2 with
  | some e => ⟨p, pi, env.runPrepare.1, some e⟩
  | none =>
  match env.createValidator.1.waitValidResult with
  | some e => ⟨p, pi, env.runPrepare.1, some e⟩
  | none =>
  ⟨p, { pi with started := true }, "", none⟩

/-! ## The shell manager's secret masking (`shellInterface`, src/main.go)

Strings are handled as `List Char` so that Go's byte-wise
`strings.Replace`/`strings.HasPrefix` can be transcribed directly. -/

/-- Go `strings.HasPrefix(s, pat)`: does `s` begin with `pat`? -/
def leadsWith : List Char → List Char → Bool
  | [], _ => true
  | _ :: _, [] => false
  | a :: pat, b :: s => a = b && leadsWith pat s

/-- Go `strings.Contains(s, pat)`: does `pat` occur contiguously in `s`? -/
def containsSeg (pat : List Char) : List Char → Bool
  | [] => pat.isEmpty
  | b :: t => leadsWith pat (b :: t) || containsSeg pat t

/-- Go `strings.Replace(s, old, new, -1)`: replace every non-overlapping
occurrence of `old` in `s` by `new`, scanning left to right; an empty `old`
inserts `new` before every character and at the end, as in Go. -/
def goReplace (s old new : List Char) : List Char :=
  match old with
  | [] => new ++ (s.map (fun c => c :: new)).flatten
  | o :: os =>
    match s with
    | [] => []
    | c :: t =>
      if leadsWith (o :: os) (c :: t) then
        new ++ goReplace ((c :: t).drop (os.length + 1)) (o :: os) new
      else c :: goReplace t (o :: os) new
  termination_by s.length
  decreasing_by
  · simp only [List.length_drop, List.length_cons]
    omega
  · simp only [List.length_cons]
    omega

/-- The replacement text `"****"`. -/
def stars : List Char :=
  ['*', '*', '*', '*']

/-- The masking loop shared by `PrintEnv` and `PrintArgs` (src/main.go,
lines 141-144 and 158-161): for each name in `EnvCheck`, every occurrence of
that variable's current value is replaced by `"****"`. -/
def maskValue (envCheck : List String) (getenv : OsEnv) (v : List Char) : List Char :=
  envCheck.foldl (fun acc ce => goReplace acc (getenv ce).toList stars) v

/-- Modelled from the spec: `utils.ParseVariable` is not under src/; it
splits a `NAME=VALUE` entry at the first `=` (no `=` yields an empty value,
and the error it reports alongside is discarded by `PrintEnv`). -/
def parseVariable (entry : List Char) : List Char × List Char :=
  match entry.findIdx? (fun c => c = '=') with
  | none => (entry, [])
  | some i => (entry.take i, entry.drop (i + 1))

/-- State of the shell manager (`shellInterface`): the fields read by
`PrintEnv` / `PrintArgs`.  The Go map `finalArgs map[string]string` is
modelled as a list of pairs in some iteration order. -/
structure ShellInterface where
  id : String
  config : ClusterProviderConfig
  params : InstanceOptions
  finalArgs : List (List Char × List Char)

/-- One `NAME=value\n` line as written by `PrintEnv` / `PrintArgs`
(src/main.go, lines 139-146 and 156-163): the value is masked unless
`NoMaskParameters` is set; the name is printed as is. -/
def printedEntry (si : ShellInterface) (getenv : OsEnv) (n v : List Char) : List Char :=
  n ++ '=' ::
    ((if si.params.noMaskParameters then v
      else maskValue si.config.envCheck getenv v) ++ ['\n'])

/-- `shellInterface.PrintEnv` (src/main.go, lines 134-149). -/
def PrintEnv (si : ShellInterface) (getenv : OsEnv)
    (processedEnv : List (List Char)) : List Char :=
  (processedEnv.map (fun entry =>
    let p := parseVariable entry
    printedEntry si getenv p.1 p.2)).flatten

/-- `shellInterface.PrintArgs` (src/main.go, lines 150-166). -/
def PrintArgs (si : ShellInterface) (getenv : OsEnv) : List Char :=
  "Arguments:\n".toList ++
    (si.finalArgs.map (fun kv => printedEntry si getenv kv.1 kv.2)).flatten

/-! ## The execution engine (`pkg/commands`)

The engine implementation file is not part of the given source tree: only
its tests are (src/unnamed/part_001).  The state machine and the task
bookkeeping below are therefore modelled from the specification document,
except where the repository's own tests pin the behaviour — those
observations take precedence, since the tests are part of the source. -/

/-- The cluster-instance states (spec §3 together with the
`clusterStarting`, `clusterReady`, `clusterStopping`, `clusterCrashed`
constants exercised by `TestClusterInstanceStates`). -/
inductive ClusterState where
  | clusterNotStarted
  | clusterStarting
  | clusterReady
  | clusterBusy
  | clusterStopping
  | clusterCrashed
  | clusterDestroyed
  deriving Repr, DecidableEq

/-- Modelled from the spec: `executionContext.destroyCluster(inst,
sendCompletion, recycle)` is not under src/.  Its observable behaviour on
`Starting` and `Stopping` is pinned by the repository's test
`TestClusterInstanceStates` (src/unnamed/part_001, lines 88-98): invoked on
a `Starting` instance it returns nil and leaves the state `Starting`;
invoked on a `Stopping` instance it returns nil and the state ends up
`Crashed`.  On the terminal states `Crashed` and `Destroyed` it has no
effect (spec §4.1, "already destroyed"); on the remaining live states it
tears the cluster down and marks it `Crashed`, consistently with the
`Stopping` observation.  The two flags select completion-event emission and
recycling and do not change the resulting state. -/
def destroyCluster (s : ClusterState) (_sendCompletion _recycle : Bool) : ClusterState :=
  match s with
  | .clusterStarting => .clusterStarting
  | .clusterCrashed => .clusterCrashed
  | .clusterDestroyed => .clusterDestroyed
  | _ => .clusterCrashed

/-- Causes attached to a `ClusterCrashed` event (spec §4.1). -/
inductive CrashCause where
  | startup
  | liveness
  deriving Repr, DecidableEq

/-- Cluster lifecycle events on the operation channel (spec §3,
`OperationEvent`). -/
inductive ClusterEvent where
  | clusterReadyEv
  | clusterCrashedEv (cause : CrashCause)
  | clusterDestroyedEv
  deriving Repr, DecidableEq

/-- Modelled from the spec: the provisioning outcome handling of
`startCluster` is not under src/.  Per spec §4.1, from `Starting` a failing
start script (non-zero exit code) moves the instance to `Crashed` and emits
`ClusterCrashed(cause=startup)`, while success moves it to `Ready` and
emits `ClusterReady`; this matches `TestClusterInstanceStates`, where
`a_provider` (start script `echo starting`) reaches `clusterReady` and
`b_provider` (start script exiting 2) reaches `clusterCrashed`. -/
def provisionResult (s : ClusterState) (exitCode : Nat) :
    ClusterState × List ClusterEvent :=
  match s with
  | .clusterStarting =>
    if exitCode = 0 then (.clusterReady, [.clusterReadyEv])
    else (.clusterCrashed, [.clusterCrashedEv .startup])
  | _ => (s, [])

/-- Task statuses (spec §3, `TestEntry.Status`). -/
inductive Status where
  | pending
  | inProgress
  | success
  | failed
  | timeout
  | skipped
  | rerunRequired
  deriving Repr, DecidableEq

/-- The terminal statuses (spec §3 invariant 3, §4.5, §8 invariant 4). -/
def Status.isTerminal : Status → Bool
  | .success => true
  | .failed => true
  | .timeout => true
  | .skipped => true
  | _ => false

/-- A test task's run record (spec §3, `TestEntry`). -/
structure TestTaskModel where
  key : String
  status : Status
  attempts : Nat
  maxRetries : Nat
  deriving Repr, DecidableEq

/-- The engine state touched by task completion (spec §4.4): the task list
and the monotonically growing `completed` list. -/
structure EngineState where
  tasks : List TestTaskModel
  completed : List TestTaskModel
  deriving Repr, DecidableEq

/-- Modelled from the spec: `executionContext.updateTestExecution` is not
under src/.  A task already in a terminal status is left untouched and not
completed again (spec §8 invariant 4, pinned by
`TestUpdateTaskWithTimeout_ShouldNotCompleteTask`: updating a `Skipped`
task with `Timeout` leaves `completed` empty); otherwise, per spec §4.4, a
`Failed`/`Timeout` outcome with retry budget left marks the task
`RerunRequired`, and any other outcome becomes the terminal status and the
task is appended to `completed`. -/
def updateTaskStatus (t : TestTaskModel) (outcome : Status) : TestTaskModel × Bool :=
  if t.status.isTerminal then (t, false)
  else if (outcome = .failed ∨ outcome = .timeout) ∧ t.attempts < t.maxRetries then
    ({ t with status := .rerunRequired, attempts := t.attempts + 1 }, false)
  else
    ({ t with status := outcome }, true)

/-- Modelled from the spec: the engine-state effect of task completion —
the task record is updated in place and appended to `completed` exactly
when it reached a terminal status now; `completed` entries are never
removed (spec §3 invariant 6). -/
def updateTestExecution (st : EngineState) (t : TestTaskModel) (outcome : Status) :
    EngineState :=
  let r := updateTaskStatus t outcome
  { st with
    tasks := st.tasks.map (fun u => if u.key = t.key then r.1 else u)
    completed := if r.2 then st.completed ++ [r.1] else st.completed }

/-! ## Sequences of `CreateCluster` calls -/

/-- The ordinal counter a provider state holds for a given name (0 when the
name was never used). -/
def indexVal (p : PacketProvider) (name : String) : Nat :=
  (p.indexes.lookup name).getD 0

/-- Run a sequence of `CreateCluster` calls against one provider value,
threading its state; a failed validation leaves the state untouched, exactly
as in the source (validation happens before the lock and the counter
update). -/
def runCreateClusters (getenv : OsEnv) (opts : InstanceOptions) :
    List ClusterProviderConfig → PacketProvider →
    List (Option PacketInstance) × PacketProvider
  | [], p => ([], p)
  | cfg :: rest, p =>
    match CreateCluster cfg getenv opts p with
    | .error _ =>
      let r := runCreateClusters getenv opts rest p
      (none :: r.1, r.2)
    | .ok ip =>
      let r := runCreateClusters getenv opts rest ip.2
      (some ip.1 :: r.1, r.2)

/-- The ids of the successfully created instances whose configuration bears
the given provider name, in creation order. -/
def idsFor (name : String) (results : List (Option PacketInstance)) : List String :=
  results.filterMap (fun oi =>
    match oi with
    | some inst => if inst.config.name = name then some inst.id else none
    | none => none)

/-- How many configurations in the list successfully create an instance for
the given provider name. -/
def countFor (getenv : OsEnv) (name : String) : List ClusterProviderConfig → Nat
  | [] => 0
  | cfg :: rest =>
    (if cfg.name = name ∧ ValidateConfig cfg getenv = none then 1 else 0) +
      countFor getenv name rest

/-! ## Concrete example inputs used by witnesses and counterexamples -/

/-- A minimal structurally valid packet configuration element. -/
def exPacketConfig : PacketConfig :=
  { sshKey := "key.pem"
    hardwareDevices := []
    devices := [⟨⟨"dev1", "host-1", "ubuntu", "hourly", []⟩, "c3.small"⟩]
    hardwareReservations := []
    facilities := ["sshd"]
    preferredFacility := "" }

/-- A structurally valid provider configuration. -/
def exConfig : ClusterProviderConfig :=
  { name := "packet"
    timeout := 100
    nodeCount := 1
    kind := "packet"
    retryCount := 1
    instances := 1
    scripts := [("config", "echo ./.tests/config"), ("start", "echo starting"),
                ("install", "echo installed")]
    env := []
    envCheck := ["PACKET_PROJECT_ID"]
    packet := some exPacketConfig
    enabled := true }

/-- A process environment carrying both packet variables. -/
def exEnv : OsEnv :=
  fun v =>
    if v = "PACKET_AUTH_TOKEN" then "secret-token"
    else if v = "PACKET_PROJECT_ID" then "proj-1" else ""

/-- `exConfig` with an empty `EnvCheck` list. -/
def exConfigNoEnvCheck : ClusterProviderConfig :=
  { exConfig with envCheck := [] }

/-- A process environment where nothing is set. -/
def exEnvUnset : OsEnv :=
  fun _ => ""

/-- A not-yet-started packet instance, as `CreateCluster` would assemble it
for `exConfig`. -/
def exInst : PacketInstance :=
  { root := "/r/packet-1"
    id := "packet-1"
    config := exConfig
    configScript := "echo ./.tests/config"
    configLocation := ""
    projectID := "proj-1"
    packetAuthKey := "secret-token"
    keyID := ""
    keyIds := []
    devices := []
    params := ⟨false, false⟩
    started := false
    validator := none
    project := none
    sshKey := none
    virtualNetworkList := []
    hardwareReservationsList := []
    facilitiesList := []
    installScriptPresent := true }

/-- A validator whose `WaitValid` succeeds but whose `Validate` fails — a
cluster that came up but later reports unhealthy nodes. -/
def exValidator : KubernetesValidator :=
  { validateResult := some "node check failed", waitValidResult := none }

/-- A fully successful run of every effectful step of `Start`. -/
def exStartEnvOk : StartEnv :=
  { processEnvironmentErr := none
    runInstall := ("install.log", none)
    runSetup := ("setup.log", none)
    fileExists := fun _ => true
    newClientErr := none
    projects := [⟨"proj-1", "ci"⟩]
    createKeyEnv :=
      { openFileErr := none
        genID := "2021-1-1-r"
        readKeyFileErr := none
        sshKeyCreated := some ⟨"key-id-1", "dev-ci-cloud-2021-1-1-r", "ssh-rsa aaa"⟩
        sshKeyCreateErr := none
        sshKeysList := [] }
    virtualNetworks := (["vn-1"], none)
    hardwareReservationsRaw := ([], none)
    createHardwareDevice := fun _ => ("", some "no hardware device expected")
    facilitiesOpenErr := none
    facilitiesRaw := ([("ewr1", ["sshd"])], none)
    createFacilityDevice := fun _ => ("device-id-1", none)
    waitDevicesStartupErr := none
    setupDevicePortsErr := fun _ => none
    addDeviceContextArgumentsErr := none
    runStart := ("start.log", none)
    kube := { getConfigLocation := "/cfg/kubeconfig", execReadOutput := [], execReadErr := none }
    createValidator := (exValidator, none)
    runPrepare := ("prepare.log", none) }

/-- `exStartEnvOk` with the very first step failing. -/
def exStartEnvFail : StartEnv :=
  { exStartEnvOk with processEnvironmentErr := some "env processing failed" }

/-- A shell manager whose configuration requires the secret `TOKEN`. -/
def exShell : ShellInterface :=
  { id := "packet-1"
    config := { exConfig with envCheck := ["TOKEN"] }
    params := ⟨false, false⟩
    finalArgs := [] }

/-- A process environment whose `TOKEN` secret is the string of two
asterisks. -/
def exEnvStars : OsEnv :=
  fun v => if v = "TOKEN" then "**" else ""

/-- A process environment whose `TOKEN` secret is an ordinary word. -/
def exEnvSecret : OsEnv :=
  fun v => if v = "TOKEN" then "hunter2" else ""

/-! ## Helper lemmas -/

theorem updateProject_started (projects : List Project) (pi : PacketInstance) :
    (updateProject projects pi).1.started = pi.started := by
  unfold updateProject
  dsimp only
  split <;> rfl

theorem createKey_started (env : CreateKeyEnv) (pi : PacketInstance) :
    (createKey env pi).1.started = pi.started := by
  unfold createKey
  dsimp only
  repeat' split
  all_goals rfl

theorem updateKUBEConfig_started (env : KubeConfigEnv) (pi : PacketInstance) :
    (updateKUBEConfig env pi).1.started = pi.started := by
  unfold updateKUBEConfig
  dsimp only
  repeat' split
  all_goals rfl

/-- Case analysis of `Start`: on the unique success path `started` is set and
the freshly created validator is installed; on every error path `started` is
left untouched. -/
theorem Start_cases (env : StartEnv) (p : PacketProvider) (pi : PacketInstance) :
    ((Start env p pi).err = none ∧ (Start env p pi).inst.started = true ∧
      (Start env p pi).inst.validator = some env.createValidator.1) ∨
    ((Start env p pi).err ≠ none ∧ (Start env p pi).inst.started = pi.started) := by
  unfold Start
  dsimp only
  repeat' split
  all_goals
    first
    | exact Or.inl ⟨rfl, rfl, rfl⟩
    | (refine Or.inr ⟨fun h => Option.noConfusion h, ?_⟩
       simp [createKey_started, updateProject_started, updateKUBEConfig_started])


/-! ## Decimal rendering: injectivity -/

theorem natDigits_lt (n : Nat) (h : n < 10) : natDigits n = [Nat.digitChar n] := by
  rw [natDigits.eq_def]
  simp [h]

theorem natDigits_ge (n : Nat) (h : ¬n < 10) :
    natDigits n = natDigits (n / 10) ++ [Nat.digitChar (n % 10)] := by
  rw [natDigits.eq_def]
  simp [h]

theorem natDigits_ne_nil (n : Nat) : natDigits n ≠ [] := by
  by_cases h : n < 10
  · simp [natDigits_lt n h]
  · simp [natDigits_ge n h]

theorem digitChar_injOn (a b : Nat) (ha : a < 10) (hb : b < 10)
    (h : Nat.digitChar a = Nat.digitChar b) : a = b := by
  have key : ∀ x y : Fin 10, Nat.digitChar x.val = Nat.digitChar y.val → x = y := by decide
  have := key ⟨a, ha⟩ ⟨b, hb⟩ h
  exact congrArg Fin.val this

theorem natDigits_inj : ∀ m n : Nat, natDigits m = natDigits n → m = n := by
  intro m
  induction m using Nat.strong_induction_on with
  | _ m ih =>
    intro n h
    by_cases hm : m < 10 <;> by_cases hn : n < 10
    · rw [natDigits_lt m hm, natDigits_lt n hn] at h
      exact digitChar_injOn m n hm hn (List.cons.inj h).1
    · rw [natDigits_lt m hm, natDigits_ge n hn] at h
      have hlen := congrArg List.length h
      have hne := natDigits_ne_nil (n / 10)
      simp [List.length_append] at hlen
      cases hd : natDigits (n / 10) with
      | nil => exact absurd hd hne
      | cons x xs => rw [hd] at hlen; simp at hlen
    · rw [natDigits_ge m hm, natDigits_lt n hn] at h
      have hlen := congrArg List.length h
      have hne := natDigits_ne_nil (m / 10)
      simp [List.length_append] at hlen
      cases hd : natDigits (m / 10) with
      | nil => exact absurd hd hne
      | cons x xs => rw [hd] at hlen; simp at hlen
    · rw [natDigits_ge m hm, natDigits_ge n hn] at h
      have hrev := congrArg List.reverse h
      simp only [List.reverse_append, List.reverse_cons, List.reverse_nil,
        List.nil_append, List.singleton_append, List.cons.injEq] at hrev
      have hmod : m % 10 = n % 10 :=
        digitChar_injOn _ _ (Nat.mod_lt _ (by omega)) (Nat.mod_lt _ (by omega)) hrev.1
      have hdiveq : natDigits (m / 10) = natDigits (n / 10) :=
        List.reverse_injective hrev.2
      have hdiv : m / 10 = n / 10 :=
        ih (m / 10) (Nat.div_lt_self (by omega) (by omega)) _ hdiveq
      omega

theorem natRepr_inj (m n : Nat) (h : natRepr m = natRepr n) : m = n := by
  apply natDigits_inj
  simpa [natRepr] using congrArg String.data h

theorem string_append_cancel (s t u : String) (h : s ++ t = s ++ u) : t = u := by
  have h2 : (s ++ t).data = (s ++ u).data := congrArg String.data h
  rw [String.data_append, String.data_append] at h2
  exact String.ext (List.append_cancel_left h2)

/-! ## Provider ordinal bookkeeping -/

theorem getProviderID_spec (p : PacketProvider) (name : String) :
    getProviderID p name = (natRepr (indexVal p name + 1),
      { p with indexes := (name, indexVal p name + 1) :: p.indexes }) := by
  unfold getProviderID indexVal
  cases h : p.indexes.lookup name <;> simp [h]

theorem indexVal_cons_same (p : PacketProvider) (name : String) (v : Nat) :
    indexVal { p with indexes := (name, v) :: p.indexes } name = v := by
  simp [indexVal, List.lookup]

theorem indexVal_cons_other (p : PacketProvider) (k name : String) (v : Nat)
    (h : name ≠ k) :
    indexVal { p with indexes := (k, v) :: p.indexes } name = indexVal p name := by
  have hbe : (name == k) = false := beq_eq_false_iff_ne.mpr h
  simp [indexVal, List.lookup, hbe]

theorem CreateCluster_spec (cfg : ClusterProviderConfig) (getenv : OsEnv)
    (opts : InstanceOptions) (p : PacketProvider) :
    (ValidateConfig cfg getenv = none →
      ∃ inst p2, CreateCluster cfg getenv opts p = Except.ok (inst, p2) ∧
        inst.config = cfg ∧
        inst.id = cfg.name ++ "-" ++ natRepr (indexVal p cfg.name + 1) ∧
        indexVal p2 cfg.name = indexVal p cfg.name + 1 ∧
        (∀ other, other ≠ cfg.name → indexVal p2 other = indexVal p other)) ∧
    (∀ e, ValidateConfig cfg getenv = some e →
      CreateCluster cfg getenv opts p = Except.error e) := by
  constructor
  · intro hv
    unfold CreateCluster
    rw [hv, getProviderID_spec]
    dsimp only
    refine ⟨_, _, rfl, rfl, rfl, ?_, ?_⟩
    · exact indexVal_cons_same p cfg.name _
    · intro other hother
      exact indexVal_cons_other p cfg.name other _ hother
  · intro e hv
    unfold CreateCluster
    rw [hv]

theorem idsFor_nil (name : String) : idsFor name [] = [] := rfl

theorem idsFor_none (name : String) (l : List (Option PacketInstance)) :
    idsFor name (none :: l) = idsFor name l := by
  simp [idsFor]

theorem idsFor_some (name : String) (inst : PacketInstance)
    (l : List (Option PacketInstance)) :
    idsFor name (some inst :: l) =
      if inst.config.name = name then inst.id :: idsFor name l else idsFor name l := by
  simp only [idsFor, List.filterMap_cons]
  split <;> split <;> simp_all

/-- The core invariant behind the instance ids: starting from any provider
state, the ids handed out for a fixed provider name are the consecutive
decimal ordinals continuing that provider's counter, regardless of
interleaved creations for other names or failed validations. -/
theorem idsFor_runCreateClusters (getenv : OsEnv) (opts : InstanceOptions)
    (name : String) :
    ∀ (cfgs : List ClusterProviderConfig) (p : PacketProvider),
      idsFor name (runCreateClusters getenv opts cfgs p).1 =
        (List.range (countFor getenv name cfgs)).map
          (fun i => name ++ "-" ++ natRepr (indexVal p name + i + 1)) := by
  intro cfgs
  induction cfgs with
  | nil => intro p; rfl
  | cons cfg rest ih =>
    intro p
    cases hv : ValidateConfig cfg getenv with
    | some e =>
      have hcc := (CreateCluster_spec cfg getenv opts p).2 e hv
      simp only [runCreateClusters, hcc]
      rw [idsFor_none]
      have hcount : countFor getenv name (cfg :: rest) = countFor getenv name rest := by
        simp [countFor, hv]
      rw [hcount, ih p]
    | none =>
      obtain ⟨inst, p2, hcc, hcfg, hid, hsame, hother⟩ :=
        (CreateCluster_spec cfg getenv opts p).1 hv
      simp only [runCreateClusters, hcc]
      rw [idsFor_some]
      by_cases hn : cfg.name = name
      · subst hn
        rw [if_pos (show inst.config.name = cfg.name by rw [hcfg])]
        have hcount : countFor getenv cfg.name (cfg :: rest) =
            countFor getenv cfg.name rest + 1 := by
          simp [countFor, hv, Nat.add_comm]
        rw [hcount, List.range_succ_eq_map, List.map_cons, List.map_map, ih p2, hsame]
        congr 1
        have hfun : ((fun i => cfg.name ++ "-" ++ natRepr (indexVal p cfg.name + i + 1)) ∘ Nat.succ)
            = fun i => cfg.name ++ "-" ++ natRepr (indexVal p cfg.name + 1 + i + 1) := by
          funext i
          simp only [Function.comp_apply]
          congr 2
          omega
        rw [hfun]
      · rw [if_neg (by rw [hcfg]; exact hn)]
        have hcount : countFor getenv name (cfg :: rest) = countFor getenv name rest := by
          simp [countFor, hn]
        rw [hcount, ih p2, hother name (fun hh => hn hh.symm)]

/-! ## Claim C1 -/

/-- C1 counterexample: `destroyCluster` is not a no-op on a `Stopping`
instance — per `TestClusterInstanceStates` (lines 94-98) the state ends up
`Crashed`, so the state does change. -/
theorem destroyCluster_stopping_changes_state :
    destroyCluster ClusterState.clusterStopping false false ≠
      ClusterState.clusterStopping := by
  decide

/-- C1 (amended): `destroyCluster` has no effect on `Starting`, `Crashed`
and `Destroyed` instances; invoked from `Stopping` it tears the cluster
down and leaves it `Crashed`; and invoking it twice on the same instance
has the same observable outcome as invoking it once. -/
theorem destroyCluster_idempotent :
    (∀ sc rc : Bool,
      destroyCluster ClusterState.clusterStarting sc rc = ClusterState.clusterStarting ∧
      destroyCluster ClusterState.clusterCrashed sc rc = ClusterState.clusterCrashed ∧
      destroyCluster ClusterState.clusterDestroyed sc rc = ClusterState.clusterDestroyed ∧
      destroyCluster ClusterState.clusterStopping sc rc = ClusterState.clusterCrashed) ∧
    (∀ (s : ClusterState) (sc rc : Bool),
      destroyCluster (destroyCluster s sc rc) sc rc = destroyCluster s sc rc) := by
  constructor
  · intro sc rc
    exact ⟨rfl, rfl, rfl, rfl⟩
  · intro s sc rc
    cases s <;> rfl

/-! ## Claim C2 -/

/-- C2 counterexample: invoking `destroyCluster` on a `Starting` instance
does not set the state to `Crashed` — per `TestClusterInstanceStates`
(lines 88-92) the state stays `Starting`. -/
theorem destroyCluster_starting_not_crashed :
    destroyCluster ClusterState.clusterStarting false false ≠
      ClusterState.clusterCrashed := by
  decide

/-- C2 (amended): invoking `destroyCluster` on a `Starting` instance has no
effect — it returns nil and leaves the state `Starting`, as asserted by
`TestClusterInstanceStates`. -/
theorem destroyCluster_starting_noop :
    ∀ sc rc : Bool,
      destroyCluster ClusterState.clusterStarting sc rc =
        ClusterState.clusterStarting := by
  decide

/-! ## Claim C3 -/

/-- C3: a task whose status is already terminal is not appended to the
completed set and its record (in particular its terminal status) is left
unchanged by a further update; moreover the completed set of any update only
grows — it is extended at the tail, never shrunk. -/
theorem updateTestExecution_terminal_frozen (st : EngineState) (t : TestTaskModel)
    (outcome : Status) (h : t.status.isTerminal = true) :
    (updateTestExecution st t outcome).completed = st.completed ∧
    (updateTaskStatus t outcome).1 = t ∧
    (∀ (st2 : EngineState) (t2 : TestTaskModel) (o2 : Status),
      ∃ ns, (updateTestExecution st2 t2 o2).completed = st2.completed ++ ns) := by
  refine ⟨?_, ?_, ?_⟩
  · simp [updateTestExecution, updateTaskStatus, h]
  · simp [updateTaskStatus, h]
  · intro st2 t2 o2
    by_cases h2 : (updateTaskStatus t2 o2).2 = true
    · exact ⟨[(updateTaskStatus t2 o2).1], by simp [updateTestExecution, h2]⟩
    · exact ⟨[], by simp [updateTestExecution, h2]⟩

/-- C3 witness: the scenario of
`TestUpdateTaskWithTimeout_ShouldNotCompleteTask` — a `Skipped` task updated
with `Timeout` leaves the (empty) completed set empty. -/
theorem updateTestExecution_terminal_frozen_witness :
    (updateTestExecution ⟨[⟨"t", Status.skipped, 0, 0⟩], []⟩
      ⟨"t", Status.skipped, 0, 0⟩ Status.timeout).completed = [] :=
  (updateTestExecution_terminal_frozen ⟨[⟨"t", Status.skipped, 0, 0⟩], []⟩
    ⟨"t", Status.skipped, 0, 0⟩ Status.timeout (by decide)).1

/-! ## Claim C4 -/

/-- C4: from `Starting`, a start script exiting non-zero moves the instance
to `Crashed` and emits `ClusterCrashed(cause=startup)`, while a successful
start (exit code 0) moves it to `Ready` and emits `ClusterReady`. -/
theorem provisionResult_startup (exitCode : Nat) (h : exitCode ≠ 0) :
    provisionResult ClusterState.clusterStarting exitCode =
      (ClusterState.clusterCrashed, [ClusterEvent.clusterCrashedEv CrashCause.startup]) ∧
    provisionResult ClusterState.clusterStarting 0 =
      (ClusterState.clusterReady, [ClusterEvent.clusterReadyEv]) := by
  constructor
  · simp [provisionResult, h]
  · simp [provisionResult]

/-- C4 witness: the `b_provider` scenario of `TestClusterInstanceStates`
(start script exiting 2) crashes the instance with cause `startup`. -/
theorem provisionResult_startup_witness :
    provisionResult ClusterState.clusterStarting 2 =
      (ClusterState.clusterCrashed, [ClusterEvent.clusterCrashedEv CrashCause.startup]) :=
  (provisionResult_startup 2 (by decide)).1

/-! ## Claim C5 -/

/-- C5 counterexample: a run of `Start` returning a nil error on an
instance whose (successfully created) validator reports unhealthy nodes:
the instance is started, yet `CheckIsAlive` — which delegates to
`validator.Validate()` — fails, so "Start's nil error implies CheckIsAlive
succeeds" is false. -/
theorem Start_checkIsAlive_can_fail :
    (Start exStartEnvOk (NewPacketClusterProvider "/r") exInst).err = none ∧
    CheckIsAlive (Start exStartEnvOk (NewPacketClusterProvider "/r") exInst).inst =
      some "node check failed" := by
  constructor <;> rfl

/-- C5 (amended): on a not-yet-started instance, a nil error from `Start`
implies the instance is running (`IsRunning` true, `GetClusterConfig`
returns the config location with nil error) and `CheckIsAlive` delegates to
the installed validator's `Validate` result (instead of failing with
"cluster is not running"); every error path of `Start` leaves the instance
not started, where `IsRunning` is false and both `GetClusterConfig` and
`CheckIsAlive` fail. -/
theorem Start_postcondition (env : StartEnv) (p : PacketProvider) (pi : PacketInstance)
    (h : pi.started = false) :
    ((Start env p pi).err = none →
      IsRunning (Start env p pi).inst = true ∧
      GetClusterConfig (Start env p pi).inst =
        ((Start env p pi).inst.configLocation, none) ∧
      CheckIsAlive (Start env p pi).inst = env.createValidator.1.validateResult) ∧
    ((Start env p pi).err ≠ none →
      IsRunning (Start env p pi).inst = false ∧
      GetClusterConfig (Start env p pi).inst = ("", some "cluster is not started yet") ∧
      CheckIsAlive (Start env p pi).inst = some "cluster is not running") := by
  rcases Start_cases env p pi with ⟨he, hs, hv⟩ | ⟨he, hs⟩
  · refine ⟨fun _ => ⟨hs, ?_, ?_⟩, fun hne => absurd he hne⟩
    · simp [GetClusterConfig, hs]
    · simp [CheckIsAlive, hs, hv]
  · refine ⟨fun h0 => absurd h0 he, fun _ => ?_⟩
    rw [h] at hs
    refine ⟨hs, ?_, ?_⟩
    · simp [GetClusterConfig, hs]
    · simp [CheckIsAlive, hs]

/-- C5 witness: the amended theorem applied to the all-successful run and to
a run whose first step fails. -/
theorem Start_postcondition_witness :
    IsRunning (Start exStartEnvOk (NewPacketClusterProvider "/r") exInst).inst = true ∧
    IsRunning (Start exStartEnvFail (NewPacketClusterProvider "/r") exInst).inst = false :=
  ⟨((Start_postcondition exStartEnvOk (NewPacketClusterProvider "/r") exInst rfl).1 rfl).1,
   ((Start_postcondition exStartEnvFail (NewPacketClusterProvider "/r") exInst rfl).2
      (fun hcon => Option.noConfusion hcon)).1⟩

/-! ## Claim C6 -/

/-- C6 counterexample: a structurally valid configuration with an empty
`EnvCheck` list still fails validation in an empty process environment —
`PACKET_AUTH_TOKEN` / `PACKET_PROJECT_ID` are checked directly by
`ValidateConfig`, not through `EnvCheck`, so "error exactly when an EnvCheck
variable is unset" is false. -/
theorem ValidateConfig_errors_without_envCheck :
    exConfigNoEnvCheck.envCheck = [] ∧
    ValidateConfig exConfigNoEnvCheck exEnvUnset ≠ none := by
  constructor
  · rfl
  · decide

/-- C6 (amended): for a structurally valid packet configuration,
`ValidateConfig` succeeds iff every variable listed in `EnvCheck` is set
and, independently of `EnvCheck`, both `PACKET_AUTH_TOKEN` and
`PACKET_PROJECT_ID` are set; any unset variable among these produces an
error. -/
theorem ValidateConfig_env_iff (config : ClusterProviderConfig) (getenv : OsEnv)
    (pc : PacketConfig)
    (hpk : config.packet = some pc)
    (hdev : pc.hardwareDevices.length > 0 ∨ pc.devices.length > 0)
    (hhw : pc.hardwareDevices.length > 0 → pc.hardwareReservations.length ≠ 0)
    (hfa : pc.devices.length > 0 → pc.facilities.length ≠ 0)
    (hcfg : ¬((lookupScript config.scripts "config").isNone ∧
              ¬config.env.any (fun e => e.startsWith "KUBECONFIG=")))
    (hstart : ¬(lookupScript config.scripts "start").isNone = true) :
    (ValidateConfig config getenv = none ↔
      ((∀ v ∈ config.envCheck, getenv v ≠ "") ∧
       getenv "PACKET_AUTH_TOKEN" ≠ "" ∧
       getenv "PACKET_PROJECT_ID" ≠ "")) := by
  unfold ValidateConfig
  rw [hpk]
  dsimp only
  rw [if_neg (by tauto), if_neg (by tauto), if_neg (by tauto), if_neg hcfg,
    if_neg hstart]
  split_ifs with h1 h2 h3
  · simp only [List.any_eq_true, decide_eq_true_eq] at h1
    obtain ⟨v, hv, hveq⟩ := h1
    exact Iff.intro (fun h => h.elim) (fun hP => absurd hveq (hP.1 v hv))
  · exact Iff.intro (fun h => h.elim) (fun hP => absurd h2 hP.2.1)
  · exact Iff.intro (fun h => h.elim) (fun hP => absurd h3 hP.2.2)
  · refine Iff.intro (fun _ => ⟨?_, h2, h3⟩) (fun _ => rfl)
    intro v hv hveq
    exact h1 (by simp only [List.any_eq_true, decide_eq_true_eq]; exact ⟨v, hv, hveq⟩)

/-- C6 witness: the amended theorem applied to the concrete valid
configuration and environment. -/
theorem ValidateConfig_env_iff_witness :
    ValidateConfig exConfig exEnv = none :=
  (ValidateConfig_env_iff exConfig exEnv exPacketConfig rfl (by decide) (by decide)
    (by decide) (by decide) (by decide)).mpr (by decide)

/-! ## Claim C7 -/

/-- C7: `GetClusterConfig` returns the instance's config location with a nil
error exactly on started instances and an empty path with a non-nil error on
instances that have not started; in particular every failed `Start` of a
fresh instance leaves `GetClusterConfig` exposing no path. -/
theorem GetClusterConfig_spec (pi : PacketInstance) :
    (pi.started = true → GetClusterConfig pi = (pi.configLocation, none)) ∧
    (pi.started = false →
      GetClusterConfig pi = ("", some "cluster is not started yet")) ∧
    (∀ (env : StartEnv) (p : PacketProvider) (pi0 : PacketInstance),
      pi0.started = false → (Start env p pi0).err ≠ none →
      GetClusterConfig (Start env p pi0).inst = ("", some "cluster is not started yet")) := by
  refine ⟨?_, ?_, ?_⟩
  · intro h
    simp [GetClusterConfig, h]
  · intro h
    simp [GetClusterConfig, h]
  · intro env p pi0 h0 herr
    rcases Start_cases env p pi0 with ⟨he, _, _⟩ | ⟨_, hs⟩
    · exact absurd he herr
    · rw [h0] at hs
      simp [GetClusterConfig, hs]

/-- C7 witness: a started instance exposes its config location with a nil
error; the fresh `exInst` exposes an empty path with an error. -/
theorem GetClusterConfig_spec_witness :
    GetClusterConfig { exInst with started := true, configLocation := "/cfg/kubeconfig" } =
      ("/cfg/kubeconfig", none) ∧
    GetClusterConfig exInst = ("", some "cluster is not started yet") :=
  ⟨(GetClusterConfig_spec { exInst with started := true, configLocation := "/cfg/kubeconfig" }).1 rfl,
   (GetClusterConfig_spec exInst).2.1 rfl⟩

/-! ## Claim C8 -/

/-- C8: once `configLocation` is non-empty, `updateKUBEConfig` returns the
instance completely unchanged (and a nil error) — the published path is
stable. -/
theorem updateKUBEConfig_stable (env : KubeConfigEnv) (pi : PacketInstance)
    (h : pi.configLocation ≠ "") :
    updateKUBEConfig env pi = (pi, none) := by
  simp [updateKUBEConfig, h]

/-- C8 witness: an instance with a published config location is untouched by
another `updateKUBEConfig`, even one observing different values. -/
theorem updateKUBEConfig_stable_witness :
    updateKUBEConfig ⟨"/elsewhere", ["/other"], none⟩
        { exInst with configLocation := "/cfg/kubeconfig" } =
      ({ exInst with configLocation := "/cfg/kubeconfig" }, none) :=
  updateKUBEConfig_stable ⟨"/elsewhere", ["/other"], none⟩
    { exInst with configLocation := "/cfg/kubeconfig" } (by decide)


/-! ## Claim C9 -/

/-- C9: over any sequence of `CreateCluster` calls on a freshly created
packet provider, the successfully created instances for a provider name `P`
receive the ids `P-1`, `P-2`, ... in order — ordinals start at 1 and
increment by 1 per name — and hence all ids for the same provider name are
distinct. -/
theorem CreateCluster_ordinal_ids (getenv : OsEnv) (opts : InstanceOptions)
    (root name : String) (cfgs : List ClusterProviderConfig) :
    idsFor name (runCreateClusters getenv opts cfgs (NewPacketClusterProvider root)).1 =
      (List.range (countFor getenv name cfgs)).map
        (fun i => name ++ "-" ++ natRepr (i + 1)) ∧
    (idsFor name (runCreateClusters getenv opts cfgs (NewPacketClusterProvider root)).1).Nodup := by
  have hmain := idsFor_runCreateClusters getenv opts name cfgs (NewPacketClusterProvider root)
  have hzero : indexVal (NewPacketClusterProvider root) name = 0 := rfl
  rw [hzero] at hmain
  simp only [Nat.zero_add] at hmain
  have hinj : Function.Injective (fun i : Nat => name ++ "-" ++ natRepr (i + 1)) := by
    intro a b hab
    have h1 := string_append_cancel (name ++ "-") _ _ hab
    have h2 := natRepr_inj _ _ h1
    omega
  refine ⟨hmain, ?_⟩
  rw [hmain]
  exact (List.nodup_range _).map hinj


/-! ## Go string replacement: masking lemmas -/

theorem goReplace_nil (old new : List Char) (h : old ≠ []) :
    goReplace [] old new = [] := by
  cases old with
  | nil => exact absurd rfl h
  | cons o os => rw [goReplace.eq_def]

theorem goReplace_empty_old (s new : List Char) :
    goReplace s [] new = new ++ (s.map (fun c => c :: new)).flatten := by
  rw [goReplace.eq_def]

theorem goReplace_cons_pos (c : Char) (t : List Char) (o : Char) (os new : List Char)
    (h : leadsWith (o :: os) (c :: t) = true) :
    goReplace (c :: t) (o :: os) new =
      new ++ goReplace ((c :: t).drop (os.length + 1)) (o :: os) new := by
  rw [goReplace.eq_def]
  simp [h]

theorem goReplace_cons_neg (c : Char) (t : List Char) (o : Char) (os new : List Char)
    (h : ¬leadsWith (o :: os) (c :: t) = true) :
    goReplace (c :: t) (o :: os) new = c :: goReplace t (o :: os) new := by
  rw [goReplace.eq_def]
  simp [h]

theorem containsSeg_cons (w : List Char) (c : Char) (t : List Char) :
    containsSeg w (c :: t) = (leadsWith w (c :: t) || containsSeg w t) := by
  rw [containsSeg]

theorem containsSeg_nil_false (w : List Char) (h : w ≠ []) :
    containsSeg w [] = false := by
  cases w with
  | nil => exact absurd rfl h
  | cons a w' => rfl

theorem containsSeg_cons_false (w : List Char) (c : Char) (t : List Char)
    (h : containsSeg w (c :: t) = false) :
    leadsWith w (c :: t) = false ∧ containsSeg w t = false := by
  rw [containsSeg_cons] at h
  simpa using h

theorem leadsWith_stars_false (w rest : List Char) (hne : w ≠ [])
    (hstar : '*' ∉ w) : leadsWith w ('*' :: rest) = false := by
  cases w with
  | nil => exact absurd rfl hne
  | cons a w' =>
    have ha : a ≠ '*' := fun hh => hstar (hh ▸ List.mem_cons_self a w')
    simp [leadsWith, ha]

theorem containsSeg_stars_append (w : List Char) (hne : w ≠ []) (hstar : '*' ∉ w) :
    ∀ (a rest : List Char), (∀ c ∈ a, c = '*') →
      containsSeg w (a ++ rest) = containsSeg w rest := by
  intro a
  induction a with
  | nil => intro rest _; rfl
  | cons c a' iha =>
    intro rest hall
    have hc : c = '*' := hall c (List.mem_cons_self c a')
    subst hc
    rw [List.cons_append, containsSeg_cons, leadsWith_stars_false w _ hne hstar]
    simp only [Bool.false_or]
    exact iha rest (fun c hc => hall c (List.mem_cons_of_mem _ hc))

theorem stars_all_stars : ∀ c ∈ stars, c = '*' := by decide

theorem containsSeg_drop (w : List Char) :
    ∀ (k : Nat) (s : List Char), containsSeg w s = false →
      containsSeg w (s.drop k) = false := by
  intro k
  induction k with
  | zero => intro s h; exact h
  | succ k ihk =>
    intro s h
    cases s with
    | nil => exact h
    | cons c t => exact ihk t (containsSeg_cons_false w c t h).2

theorem leadsWith_through_replace (old : List Char) (hold : old ≠ []) :
    ∀ (s w : List Char), w ≠ [] → '*' ∉ w →
      leadsWith w (goReplace s old stars) = true → leadsWith w s = true := by
  intro s
  induction s with
  | nil =>
    intro w hne hstar h
    rw [goReplace_nil old stars hold] at h
    cases w with
    | nil => exact absurd rfl hne
    | cons a w' => exact absurd h (by simp [leadsWith])
  | cons c t iht =>
    intro w hne hstar h
    cases old with
    | nil => exact absurd rfl hold
    | cons o os =>
      by_cases hl : leadsWith (o :: os) (c :: t) = true
      · rw [goReplace_cons_pos c t o os stars hl] at h
        have hfalse : leadsWith w (stars ++ goReplace ((c :: t).drop (os.length + 1)) (o :: os) stars) = false :=
          leadsWith_stars_false w _ hne hstar
        rw [hfalse] at h
        exact absurd h (by simp)
      · rw [goReplace_cons_neg c t o os stars hl] at h
        cases w with
        | nil => exact absurd rfl hne
        | cons a w' =>
          rw [leadsWith] at h ⊢
          simp only [Bool.and_eq_true, decide_eq_true_eq] at h ⊢
          obtain ⟨hac, hw'⟩ := h
          refine ⟨hac, ?_⟩
          cases w' with
          | nil => rfl
          | cons b w'' =>
            exact iht (b :: w'') (by simp)
              (fun hh => hstar (List.mem_cons_of_mem a hh)) hw'

theorem containsSeg_replace_self_aux (old : List Char) (hold : old ≠ [])
    (hstar : '*' ∉ old) :
    ∀ (n : Nat) (s : List Char), s.length ≤ n →
      containsSeg old (goReplace s old stars) = false := by
  intro n
  induction n with
  | zero =>
    intro s hlen
    have hs : s = [] := List.length_eq_zero.mp (Nat.le_zero.mp hlen)
    subst hs
    rw [goReplace_nil old stars hold]
    exact containsSeg_nil_false old hold
  | succ n ihn =>
    intro s hlen
    cases s with
    | nil =>
      rw [goReplace_nil old stars hold]
      exact containsSeg_nil_false old hold
    | cons c t =>
      cases old with
      | nil => exact absurd rfl hold
      | cons o os =>
        by_cases hl : leadsWith (o :: os) (c :: t) = true
        · rw [goReplace_cons_pos c t o os stars hl]
          rw [containsSeg_stars_append (o :: os) hold hstar _ _ stars_all_stars]
          apply ihn
          simp only [List.length_drop, List.length_cons] at hlen ⊢
          omega
        · rw [goReplace_cons_neg c t o os stars hl]
          rw [containsSeg_cons]
          have hR : containsSeg (o :: os) (goReplace t (o :: os) stars) = false := by
            apply ihn
            simp only [List.length_cons] at hlen
            omega
          rw [hR]
          simp only [Bool.or_false]
          by_cases hoc : o = c
          · subst hoc
            cases os with
            | nil =>
              exact absurd (by simp [leadsWith]) hl
            | cons o2 os2 =>
              cases hlead : leadsWith (o2 :: os2) (goReplace t (o :: o2 :: os2) stars) with
              | false => simp [leadsWith, hlead]
              | true =>
                have ht : leadsWith (o2 :: os2) t = true :=
                  leadsWith_through_replace (o :: o2 :: os2) hold t (o2 :: os2)
                    (by simp) (fun hh => hstar (List.mem_cons_of_mem o hh)) hlead
                exact absurd (by simp [leadsWith, ht]) hl
          · simp [leadsWith, hoc]

theorem containsSeg_replace_self (old : List Char) (hold : old ≠ [])
    (hstar : '*' ∉ old) (s : List Char) :
    containsSeg old (goReplace s old stars) = false :=
  containsSeg_replace_self_aux old hold hstar s.length s (Nat.le_refl _)

theorem containsSeg_empty_old (w : List Char) (hne : w ≠ []) (hstar : '*' ∉ w) :
    ∀ s : List Char, containsSeg w s = false →
      containsSeg w (stars ++ (s.map (fun c => c :: stars)).flatten) = false := by
  intro s
  induction s with
  | nil =>
    intro _
    rw [List.map_nil, List.flatten_nil,
      containsSeg_stars_append w hne hstar stars [] stars_all_stars]
    exact containsSeg_nil_false w hne
  | cons c t iht =>
    intro h
    obtain ⟨hl, ht⟩ := containsSeg_cons_false w c t h
    rw [List.map_cons, List.flatten_cons, List.cons_append,
      containsSeg_stars_append w hne hstar stars _ stars_all_stars, containsSeg_cons]
    have h2 := iht ht
    rw [h2]
    simp only [Bool.or_false]
    cases w with
    | nil => exact absurd rfl hne
    | cons a w' =>
      by_cases hac : a = c
      · subst hac
        cases w' with
        | nil => simp [leadsWith] at hl
        | cons b w'' =>
          have hstars : leadsWith (b :: w'')
              (stars ++ (t.map (fun c => c :: stars)).flatten) = false :=
            leadsWith_stars_false (b :: w'') _ (by simp)
              (fun hh => hstar (List.mem_cons_of_mem a hh))
          rw [leadsWith, hstars]
          simp
      · simp [leadsWith, hac]

theorem containsSeg_replace_other_aux (w : List Char) (hne : w ≠ []) (hstar : '*' ∉ w) :
    ∀ (n : Nat) (s old : List Char), s.length ≤ n → containsSeg w s = false →
      containsSeg w (goReplace s old stars) = false := by
  intro n
  induction n with
  | zero =>
    intro s old hlen h
    have hs : s = [] := List.length_eq_zero.mp (Nat.le_zero.mp hlen)
    subst hs
    cases old with
    | nil =>
      rw [goReplace_empty_old]
      exact containsSeg_empty_old w hne hstar [] h
    | cons o os =>
      rw [goReplace_nil _ _ (by simp)]
      exact containsSeg_nil_false w hne
  | succ n ihn =>
    intro s old hlen h
    cases old with
    | nil =>
      rw [goReplace_empty_old]
      exact containsSeg_empty_old w hne hstar s h
    | cons o os =>
      cases s with
      | nil =>
        rw [goReplace_nil _ _ (by simp)]
        exact containsSeg_nil_false w hne
      | cons c t =>
        by_cases hl : leadsWith (o :: os) (c :: t) = true
        · rw [goReplace_cons_pos c t o os stars hl,
            containsSeg_stars_append w hne hstar _ _ stars_all_stars]
          apply ihn _ _ ?_ (containsSeg_drop w _ _ h)
          simp only [List.length_drop, List.length_cons] at hlen ⊢
          omega
        · rw [goReplace_cons_neg c t o os stars hl, containsSeg_cons]
          obtain ⟨hlw, ht⟩ := containsSeg_cons_false w c t h
          have hR := ihn t (o :: os)
            (by simp only [List.length_cons] at hlen; omega) ht
          rw [hR]
          simp only [Bool.or_false]
          cases w with
          | nil => exact absurd rfl hne
          | cons a w' =>
            by_cases hac : a = c
            · subst hac
              cases w' with
              | nil => simp [leadsWith] at hlw
              | cons b w'' =>
                cases hlead : leadsWith (b :: w'') (goReplace t (o :: os) stars) with
                | false => simp [leadsWith, hlead]
                | true =>
                  have htl : leadsWith (b :: w'') t = true :=
                    leadsWith_through_replace (o :: os) (by simp) t (b :: w'') (by simp)
                      (fun hh => hstar (List.mem_cons_of_mem a hh)) hlead
                  rw [leadsWith] at hlw
                  simp [htl] at hlw
            · simp [leadsWith, hac]

theorem containsSeg_replace_other (w : List Char) (hne : w ≠ []) (hstar : '*' ∉ w)
    (s old : List Char) (h : containsSeg w s = false) :
    containsSeg w (goReplace s old stars) = false :=
  containsSeg_replace_other_aux w hne hstar s.length s old (Nat.le_refl _) h

theorem maskValue_preserves (w : List Char) (hne : w ≠ []) (hstar : '*' ∉ w)
    (getenv : OsEnv) :
    ∀ (l : List String) (acc : List Char), containsSeg w acc = false →
      containsSeg w (l.foldl (fun acc ce => goReplace acc (getenv ce).toList stars) acc) = false := by
  intro l
  induction l with
  | nil => intro acc h; exact h
  | cons ce rest ihl =>
    intro acc h
    rw [List.foldl_cons]
    exact ihl _ (containsSeg_replace_other w hne hstar acc (getenv ce).toList h)

theorem maskValue_removes (w : List Char) (hne : w ≠ []) (hstar : '*' ∉ w)
    (getenv : OsEnv) :
    ∀ (l : List String) (v : List Char) (ce : String), ce ∈ l → (getenv ce).toList = w →
      containsSeg w (maskValue l getenv v) = false := by
  intro l
  induction l with
  | nil => intro v ce h _; exact absurd h (List.not_mem_nil ce)
  | cons ce0 rest ihl =>
    intro v ce hmem hw
    rw [maskValue, List.foldl_cons]
    rcases List.mem_cons.mp hmem with heq | hmem'
    · subst heq
      apply maskValue_preserves w hne hstar getenv rest
      rw [hw]
      exact containsSeg_replace_self w hne hstar v
    · exact ihl _ ce hmem' hw

theorem leadsWith_sep (sep : Char) :
    ∀ (a w rest : List Char), sep ∉ w → leadsWith w (a ++ sep :: rest) = true →
      leadsWith w a = true := by
  intro a
  induction a with
  | nil =>
    intro w rest hsep h
    cases w with
    | nil => rfl
    | cons x w' =>
      rw [List.nil_append, leadsWith] at h
      simp only [Bool.and_eq_true, decide_eq_true_eq] at h
      exact absurd (h.1 ▸ List.mem_cons_self x w') (h.1 ▸ hsep)
  | cons b a' iha =>
    intro w rest hsep h
    cases w with
    | nil => rfl
    | cons x w' =>
      rw [List.cons_append, leadsWith] at h
      rw [leadsWith]
      simp only [Bool.and_eq_true, decide_eq_true_eq] at h ⊢
      exact ⟨h.1, iha w' rest (fun hh => hsep (List.mem_cons_of_mem x hh)) h.2⟩

theorem containsSeg_sep_append (sep : Char) :
    ∀ (a w rest : List Char), w ≠ [] → sep ∉ w →
      containsSeg w a = false →
      containsSeg w (a ++ sep :: rest) = containsSeg w rest := by
  intro a
  induction a with
  | nil =>
    intro w rest hne hsep ha
    rw [List.nil_append, containsSeg_cons]
    have hl : leadsWith w (sep :: rest) = false := by
      cases w with
      | nil => exact absurd rfl hne
      | cons x w' =>
        have hx : x ≠ sep := fun hh => hsep (hh ▸ List.mem_cons_self x w')
        simp [leadsWith, hx]
    rw [hl]
    simp
  | cons b a' iha =>
    intro w rest hne hsep ha
    obtain ⟨hl, ha'⟩ := containsSeg_cons_false w b a' ha
    rw [List.cons_append, containsSeg_cons]
    have hlead : leadsWith w (b :: (a' ++ sep :: rest)) = false := by
      cases hbl : leadsWith w (b :: (a' ++ sep :: rest)) with
      | false => rfl
      | true =>
        have hba : leadsWith w (b :: a') = true := by
          have := leadsWith_sep sep (b :: a') w rest hsep (by rw [List.cons_append]; exact hbl)
          exact this
        rw [hba] at hl
        exact absurd hl (by simp)
    rw [hlead]
    simp only [Bool.false_or]
    exact iha w rest hne hsep ha'


theorem containsSeg_printedEntry (si : ShellInterface) (getenv : OsEnv) (w : List Char)
    (hmask : si.params.noMaskParameters = false)
    (ce : String) (hce : ce ∈ si.config.envCheck) (hw : (getenv ce).toList = w)
    (hne : w ≠ []) (hstar : '*' ∉ w) (heqc : '=' ∉ w) (hnl : '\n' ∉ w)
    (n v rest : List Char) (hn : containsSeg w n = false) :
    containsSeg w (printedEntry si getenv n v ++ rest) = containsSeg w rest := by
  rw [printedEntry, hmask]
  rw [if_neg (by simp)]
  rw [List.append_assoc, List.cons_append, List.append_assoc, List.singleton_append]
  rw [containsSeg_sep_append '=' n w _ hne heqc hn]
  rw [containsSeg_sep_append '\n' _ w rest hne hnl
    (maskValue_removes w hne hstar getenv si.config.envCheck v ce hce hw)]

theorem containsSeg_entryBlocks (si : ShellInterface) (getenv : OsEnv) (w : List Char)
    (hmask : si.params.noMaskParameters = false)
    (ce : String) (hce : ce ∈ si.config.envCheck) (hw : (getenv ce).toList = w)
    (hne : w ≠ []) (hstar : '*' ∉ w) (heqc : '=' ∉ w) (hnl : '\n' ∉ w) :
    ∀ pairs : List (List Char × List Char),
      (∀ kv ∈ pairs, containsSeg w kv.1 = false) →
      containsSeg w
        ((pairs.map (fun kv => printedEntry si getenv kv.1 kv.2)).flatten) = false := by
  intro pairs
  induction pairs with
  | nil => intro _; exact containsSeg_nil_false w hne
  | cons kv rest ihp =>
    intro hks
    rw [List.map_cons, List.flatten_cons]
    rw [containsSeg_printedEntry si getenv w hmask ce hce hw hne hstar heqc hnl
      kv.1 kv.2 _ (hks kv (List.mem_cons_self _ _))]
    exact ihp (fun x hx => hks x (List.mem_cons_of_mem _ hx))

theorem PrintEnv_eq (si : ShellInterface) (getenv : OsEnv)
    (entries : List (List Char)) :
    PrintEnv si getenv entries =
      ((entries.map parseVariable).map
        (fun kv => printedEntry si getenv kv.1 kv.2)).flatten := by
  rw [PrintEnv, List.map_map]
  rfl

theorem PrintArgs_split (si : ShellInterface) (getenv : OsEnv) :
    PrintArgs si getenv =
      "Arguments:".toList ++ '\n' ::
        ((si.finalArgs.map (fun kv => printedEntry si getenv kv.1 kv.2)).flatten) := by
  rw [PrintArgs]
  rfl

/-- C10 (amended): with masking on, any secret among the EnvCheck values
that is non-empty, contains none of the structural characters asterisk,
equals sign and newline, and does not occur in a printed variable name or in
the literal header, never occurs in the output of PrintEnv or PrintArgs. -/
theorem PrintEnv_PrintArgs_mask (si : ShellInterface) (getenv : OsEnv)
    (processedEnv : List (List Char)) (ce : String) (w : List Char)
    (hmask : si.params.noMaskParameters = false)
    (hce : ce ∈ si.config.envCheck)
    (hw : (getenv ce).toList = w)
    (hne : w ≠ []) (hstar : '*' ∉ w) (heqc : '=' ∉ w) (hnl : '\n' ∉ w)
    (hnames : ∀ entry ∈ processedEnv, containsSeg w (parseVariable entry).1 = false)
    (hargnames : ∀ kv ∈ si.finalArgs, containsSeg w kv.1 = false)
    (hheader : containsSeg w "Arguments:".toList = false) :
    containsSeg w (PrintEnv si getenv processedEnv) = false ∧
    containsSeg w (PrintArgs si getenv) = false := by
  constructor
  · rw [PrintEnv_eq]
    apply containsSeg_entryBlocks si getenv w hmask ce hce hw hne hstar heqc hnl
    intro kv hkv
    obtain ⟨entry, hentry, hkveq⟩ := List.mem_map.mp hkv
    rw [← hkveq]
    exact hnames entry hentry
  · rw [PrintArgs_split]
    rw [containsSeg_sep_append '\n' _ w _ hne hnl hheader]
    exact containsSeg_entryBlocks si getenv w hmask ce hce hw hne hstar heqc hnl
      si.finalArgs hargnames

/-! ## Claim C10 -/

unseal goReplace in
/-- C10 counterexample: a secret consisting of two asterisks leaks through
the masking — replacing it by `"****"` re-creates an occurrence of the
secret in the printed value — so "the returned strings never contain those
secret values" fails even with masking enabled. -/
theorem PrintEnv_can_leak_secret :
    exShell.params.noMaskParameters = false ∧
    (exEnvStars "TOKEN").toList ≠ [] ∧
    containsSeg (exEnvStars "TOKEN").toList
      (PrintEnv exShell exEnvStars [('A' :: '=' :: '*' :: '*' :: [])]) = true := by
  refine ⟨rfl, by decide, by decide⟩

/-- C10 witness: a concrete secret-carrying environment printed through
`PrintEnv` and `PrintArgs` with the amended theorem's hypotheses
discharged. -/
theorem PrintEnv_PrintArgs_mask_witness :
    containsSeg "hunter2".toList
      (PrintEnv exShell exEnvSecret ["A=xhunter2y".toList]) = false ∧
    containsSeg "hunter2".toList (PrintArgs exShell exEnvSecret) = false :=
  PrintEnv_PrintArgs_mask exShell exEnvSecret ["A=xhunter2y".toList] "TOKEN"
    "hunter2".toList rfl (by decide) (by decide) (by decide) (by decide) (by decide)
    (by decide) (by decide) (by decide) (by decide)

end Cloudtest
